import Mathlib

/-!
Verification of the AI-trade repository's indicator engine
(src/lib/advanced-technical-indicators.ts) and intraday scalping
position/risk state machine (the IntradayScalpingTrader component).

Numbers are modelled as exact rationals.  JavaScript's Math.floor on a
division is modelled by the integer floor of the rational quotient, and
Number(x.toFixed(2)) by rounding to an integer number of hundredths.
Math.sqrt (used only by the volatility estimate) is irrational, so the
embedding is parametric in a function standing for the floating-point
square root; no theorem below depends on its values.
-/

/-- One OHLCV bar, as in the TechnicalData interface. -/
structure TechnicalData where
  date : String
  open' : ℚ
  high : ℚ
  low : ℚ
  close : ℚ
  volume : ℚ
deriving Repr, DecidableEq

/-- Models the JavaScript expression Number(x.toFixed(2)): round to two
decimal places. -/
def round2 (q : ℚ) : ℚ := (round (q * 100) : ℤ) / 100

/-- calculateSMA: simple average of the last period entries, 0 when fewer
than period entries exist. -/
def calculateSMA (data : List ℚ) (period : ℕ) : ℚ :=
  if data.length < period then 0
  else (data.drop (data.length - period)).sum / period

/-- calculateEMA: exponential moving average with multiplier 2/(period+1),
seeded on the first data point. -/
def calculateEMA (data : List ℚ) (period : ℕ) : ℚ :=
  match data with
  | [] => 0
  | x :: xs =>
    let multiplier : ℚ := 2 / (period + 1)
    xs.foldl (fun ema d => d * multiplier + ema * (1 - multiplier)) x

/-- Price changes prices[i] - prices[i-1] of calculateAdvancedRSI. -/
def rsiChanges (data : List TechnicalData) : List ℚ :=
  let prices := data.map (·.close)
  List.zipWith (fun b a => b - a) prices.tail prices

/-- The avgGain value of calculateAdvancedRSI: average of the last
period gains (negative changes count as 0). -/
def rsiAvgGain (data : List TechnicalData) (period : ℕ) : ℚ :=
  let gains := (rsiChanges data).map (fun c => if c > 0 then c else 0)
  ((gains.drop (gains.length - period)).sum) / period

/-- The avgLoss value of calculateAdvancedRSI: average of the last
period losses (positive changes count as 0). -/
def rsiAvgLoss (data : List TechnicalData) (period : ℕ) : ℚ :=
  let losses := (rsiChanges data).map (fun c => if c < 0 then |c| else 0)
  ((losses.drop (losses.length - period)).sum) / period

/-- calculateAdvancedRSI: neutral 50 with fewer than period+1 points,
100 when avgLoss is 0, otherwise 100 - 100/(1+avgGain/avgLoss). -/
def calculateAdvancedRSI (data : List TechnicalData) (period : ℕ := 14) : ℚ :=
  if data.length < period + 1 then 50
  else
    let avgGain := rsiAvgGain data period
    let avgLoss := rsiAvgLoss data period
    if avgLoss = 0 then 100
    else
      let rs := avgGain / avgLoss
      100 - 100 / (1 + rs)

/-- The totalVolume accumulator of calculateAdvancedVWAP. -/
def totalVolume (data : List TechnicalData) : ℚ :=
  (data.map (·.volume)).sum

/-- The typical price (high+low+close)/3 of one bar. -/
def typicalPrice (p : TechnicalData) : ℚ := (p.high + p.low + p.close) / 3

/-- The totalVolumePrice accumulator of calculateAdvancedVWAP. -/
def totalVolumePrice (data : List TechnicalData) : ℚ :=
  (data.map (fun p => typicalPrice p * p.volume)).sum

/-- calculateAdvancedVWAP: volume-weighted mean of typical price, 0 on an
empty series or zero total volume. -/
def calculateAdvancedVWAP (data : List TechnicalData) : ℚ :=
  if data.length = 0 then 0
  else if totalVolume data > 0 then totalVolumePrice data / totalVolume data
  else 0

inductive MATrend where
  | BULLISH | BEARISH | NEUTRAL
deriving Repr, DecidableEq

/-- The MovingAverageData interface. -/
structure MovingAverageData where
  ma50 : ℚ
  ma100 : ℚ
  goldenCross : Bool
  deathCross : Bool
  trend : MATrend
deriving Repr, DecidableEq

/-- calculateMovingAverages: MA50/MA100 with golden/death-cross detection
(requiring at least 201 points) and trend classification; the returned
averages are rounded to two decimals as in the source. -/
def calculateMovingAverages (data : List TechnicalData) : MovingAverageData :=
  let closePrices := data.map (·.close)
  let ma50 := calculateSMA closePrices 50
  let ma100 := calculateSMA closePrices 100
  let prevMA50 := calculateSMA closePrices.dropLast 50
  let prevMA100 := calculateSMA closePrices.dropLast 100
  let goldenCross : Bool :=
    decide (201 ≤ data.length) && decide (prevMA50 ≤ prevMA100) && decide (ma100 < ma50)
  let deathCross : Bool :=
    decide (201 ≤ data.length) && decide (prevMA100 ≤ prevMA50) && decide (ma50 < ma100)
  let trend : MATrend :=
    if ma100 < ma50 then .BULLISH else if ma50 < ma100 then .BEARISH else .NEUTRAL
  { ma50 := round2 ma50, ma100 := round2 ma100,
    goldenCross := goldenCross, deathCross := deathCross, trend := trend }

/-- calculateVolatility: annualized standard deviation of the daily
returns of the last 20 closes, 0.02 by default below 20 points.  sqrtFn
stands for the floating-point Math.sqrt. -/
def calculateVolatility (sqrtFn : ℚ → ℚ) (data : List TechnicalData) : ℚ :=
  if data.length < 20 then 1 / 50
  else
    let prices := (data.drop (data.length - 20)).map (·.close)
    let returns := List.zipWith (fun b a => (b - a) / a) prices.tail prices
    let avgReturn := returns.sum / (returns.length : ℚ)
    let variance := (returns.map (fun r => (r - avgReturn) ^ 2)).sum / (returns.length : ℚ)
    sqrtFn variance * sqrtFn 252

inductive EngineSignal where
  | STRONG_BUY | BUY | HOLD | SELL | STRONG_SELL
deriving Repr, DecidableEq

inductive RsiSignal where
  | OVERSOLD | OVERBOUGHT | NEUTRAL
deriving Repr, DecidableEq

inductive VwapSignal where
  | ABOVE | BELOW | AT_LEVEL
deriving Repr, DecidableEq

inductive TrendDirection where
  | UPTREND | DOWNTREND | SIDEWAYS
deriving Repr, DecidableEq

/-- The priceTargets record of AdvancedTechnicalIndicators. -/
structure PriceTargets where
  buyPrice : ℚ
  sellPrice : ℚ
  stopLoss : ℚ
  takeProfit : ℚ
deriving Repr, DecidableEq

/-- The analysis record of AdvancedTechnicalIndicators. -/
structure EngineAnalysis where
  rsiSignal : RsiSignal
  vwapSignal : VwapSignal
  maSignal : MATrend
  trendDirection : TrendDirection
deriving Repr, DecidableEq

/-- The AdvancedTechnicalIndicators interface (the engine's output). -/
structure AdvancedTechnicalIndicators where
  rsi : ℚ
  vwap : ℚ
  ma50 : ℚ
  ma100 : ℚ
  signal : EngineSignal
  confidence : ℚ
  analysis : EngineAnalysis
  priceTargets : PriceTargets
  timeframe : String
  lastUpdated : String
deriving Repr, DecidableEq

/-- vwapDeviation = abs(currentPrice - vwap) / vwap.  When vwap = 0 the
source's floating-point division yields Infinity (NaN when the numerator
is also 0); Infinity is modelled by a rational larger than every
threshold it is compared against, the NaN corner by 0 (in that corner the
source's comparisons are all false, as here). -/
def vwapDeviationQ (currentPrice vwap : ℚ) : ℚ :=
  if vwap = 0 then (if currentPrice = 0 then 0 else 1000000)
  else |currentPrice - vwap| / vwap

/-- calculatePriceTargets: per-signal entry/exit/stop/take-profit bands. -/
def calculatePriceTargets (currentPrice vwap : ℚ) (maData : MovingAverageData)
    (volatility : ℚ) (signal : EngineSignal) : PriceTargets :=
  let volAdjustment := max (1 / 100) (min (1 / 20) volatility)
  match signal with
  | .STRONG_BUY =>
    { buyPrice := round2 (min (currentPrice * (995 / 1000)) (vwap * (99 / 100)))
      sellPrice := round2 (currentPrice * (108 / 100))
      stopLoss := round2 (max (currentPrice * (92 / 100)) (maData.ma50 * (98 / 100)))
      takeProfit := round2 (currentPrice * (1 + volAdjustment * 4)) }
  | .BUY =>
    { buyPrice := round2 (min (currentPrice * (998 / 1000)) (vwap * (995 / 1000)))
      sellPrice := round2 (currentPrice * (105 / 100))
      stopLoss := round2 (max (currentPrice * (95 / 100)) (maData.ma50 * (99 / 100)))
      takeProfit := round2 (currentPrice * (1 + volAdjustment * (5 / 2))) }
  | .SELL =>
    { buyPrice := round2 (currentPrice * (95 / 100))
      sellPrice := round2 (max (currentPrice * (1002 / 1000)) (vwap * (1005 / 1000)))
      stopLoss := round2 (min (currentPrice * (105 / 100)) (maData.ma50 * (101 / 100)))
      takeProfit := round2 (currentPrice * (1 - volAdjustment * (5 / 2))) }
  | .STRONG_SELL =>
    { buyPrice := round2 (currentPrice * (92 / 100))
      sellPrice := round2 (max (currentPrice * (1005 / 1000)) (vwap * (101 / 100)))
      stopLoss := round2 (min (currentPrice * (108 / 100)) (maData.ma50 * (102 / 100)))
      takeProfit := round2 (currentPrice * (1 - volAdjustment * 4)) }
  | .HOLD =>
    { buyPrice := round2 (vwap * (99 / 100))
      sellPrice := round2 (vwap * (101 / 100))
      stopLoss := round2 (currentPrice * (97 / 100))
      takeProfit := round2 (currentPrice * (103 / 100)) }

/-- The body of generateAdvancedTechnicalSignals after its empty-input
guard.  lastUpdated (new Date().toISOString() in the source) is passed in
as the timestamp argument. -/
def generateSignalsBody (sqrtFn : ℚ → ℚ) (data : List TechnicalData)
    (timeframe timestamp : String) : AdvancedTechnicalIndicators :=
  let currentPrice := ((data.getLast?).map (·.close)).getD 0
  let rsi := calculateAdvancedRSI data 14
  let vwap := calculateAdvancedVWAP data
  let maData := calculateMovingAverages data
  let rsiSignal : RsiSignal :=
    if rsi < 30 then .OVERSOLD else if 70 < rsi then .OVERBOUGHT else .NEUTRAL
  let vwapDeviation := vwapDeviationQ currentPrice vwap
  let vwapSignal : VwapSignal :=
    if vwapDeviation > 5 / 1000 then
      (if currentPrice > vwap then .ABOVE else .BELOW)
    else .AT_LEVEL
  let maSignal : MATrend :=
    if maData.trend = .BULLISH then .BULLISH
    else if maData.trend = .BEARISH then .BEARISH else .NEUTRAL
  let priceAboveMA50 := currentPrice > maData.ma50
  let priceAboveMA100 := currentPrice > maData.ma100
  let trendDirection : TrendDirection :=
    if priceAboveMA50 ∧ priceAboveMA100 ∧ maData.trend = .BULLISH then .UPTREND
    else if ¬priceAboveMA50 ∧ ¬priceAboveMA100 ∧ maData.trend = .BEARISH then .DOWNTREND
    else .SIDEWAYS
  let sigConf : EngineSignal × ℚ :=
    if rsiSignal = .OVERSOLD ∧ vwapSignal = .BELOW ∧ maData.goldenCross then
      (.STRONG_BUY, 85 + min 10 ((30 - rsi) * (1 / 2)))
    else if rsiSignal = .OVERBOUGHT ∧ vwapSignal = .ABOVE ∧ maData.deathCross then
      (.STRONG_SELL, 85 + min 10 ((rsi - 70) * (1 / 2)))
    else if (rsiSignal = .OVERSOLD ∧ vwapSignal = .BELOW) ∨
            (trendDirection = .UPTREND ∧ rsi < 50) then
      (.BUY, 65 + min 15 (vwapDeviation * 300))
    else if (rsiSignal = .OVERBOUGHT ∧ vwapSignal = .ABOVE) ∨
            (trendDirection = .DOWNTREND ∧ 50 < rsi) then
      (.SELL, 65 + min 15 (vwapDeviation * 300))
    else (.HOLD, 50)
  let volatility := calculateVolatility sqrtFn data
  let priceTargets := calculatePriceTargets currentPrice vwap maData volatility sigConf.1
  { rsi := round2 rsi
    vwap := round2 vwap
    ma50 := maData.ma50
    ma100 := maData.ma100
    signal := sigConf.1
    confidence := min 95 (max 40 (round sigConf.2 : ℤ))
    analysis := { rsiSignal := rsiSignal, vwapSignal := vwapSignal,
                  maSignal := maSignal, trendDirection := trendDirection }
    priceTargets := priceTargets
    timeframe := timeframe
    lastUpdated := timestamp }

/-- generateAdvancedTechnicalSignals: throws on an empty series, otherwise
computes the full indicator/signal snapshot. -/
def generateAdvancedTechnicalSignals (sqrtFn : ℚ → ℚ) (data : List TechnicalData)
    (timeframe timestamp : String) : Except String AdvancedTechnicalIndicators :=
  if data.length = 0 then .error "No data provided for technical analysis"
  else .ok (generateSignalsBody sqrtFn data timeframe timestamp)

/-- The engine outputs named by the spec's determinism property: the
indicators, signal kind, confidence, analysis and price targets -
everything except the wall-clock lastUpdated stamp. -/
def engineObservables (o : AdvancedTechnicalIndicators) :
    ℚ × ℚ × ℚ × ℚ × EngineSignal × ℚ × EngineAnalysis × PriceTargets × String :=
  (o.rsi, o.vwap, o.ma50, o.ma100, o.signal, o.confidence, o.analysis,
   o.priceTargets, o.timeframe)

/-- From the spec's words: the minimum of the lows of the series (0 for
the empty series, which the spec's VWAP bound never touches). -/
def specMinLow : List TechnicalData → ℚ
  | [] => 0
  | [p] => p.low
  | p :: q :: ps => min p.low (specMinLow (q :: ps))

/-- From the spec's words: the maximum of the highs of the series. -/
def specMaxHigh : List TechnicalData → ℚ
  | [] => 0
  | [p] => p.high
  | p :: q :: ps => max p.high (specMaxHigh (q :: ps))

/-! ## The intraday scalping trader (IntradayScalpingTrader component) -/

inductive TradeType where
  | BUY | SELL
deriving Repr, DecidableEq

inductive ScalpSignal where
  | STRONG_BUY | BUY | HOLD | SELL | STRONG_SELL
deriving Repr, DecidableEq

/-- The string the source stores in a trade's signal field. -/
def ScalpSignal.name : ScalpSignal → String
  | .STRONG_BUY => "STRONG_BUY"
  | .BUY => "BUY"
  | .HOLD => "HOLD"
  | .SELL => "SELL"
  | .STRONG_SELL => "STRONG_SELL"

/-- The Trade interface of the scalping trader. -/
structure ScalpTrade where
  id : String
  symbol : String
  type : TradeType
  price : ℚ
  quantity : ℤ
  timestamp : ℤ
  signal : String
  confidence : ℚ
  pnl : Option ℚ
  exitPrice : Option ℚ
  holdTime : Option ℤ
deriving Repr, DecidableEq

/-- The Position interface of the scalping trader (quantity is signed:
positive for a long, negative for a short). -/
structure ScalpPosition where
  symbol : String
  quantity : ℤ
  avgBuyPrice : ℚ
  currentValue : ℚ
  unrealizedPnL : ℚ
  entryTime : ℤ
  targetPrice : ℚ
  stopLossPrice : ℚ
deriving Repr, DecidableEq

/-- The component's trading state: the trades and positions arrays, the
P&L accumulators, the available balance, and lastTradeRef (a total map
defaulting to 0, mirroring lastTradeRef.current[symbol] ORed with 0). -/
structure ScalpState where
  trades : List ScalpTrade
  positions : List ScalpPosition
  totalPnL : ℚ
  dayPnL : ℚ
  availableBalance : ℚ
  lastTradeTimes : String → ℤ

/-- The scalping configuration knobs read by the execution path. -/
structure ScalpConfig where
  minConfidence : ℚ
  maxPositionSize : ℚ
  maxDailyLoss : ℚ
  maxPositions : ℕ
  stopLossPercent : ℚ
  takeProfitPercent : ℚ
  maxHoldTime : ℤ

/-- Models the JavaScript pattern (maybeP || fallback) on prices: a
missing or zero value falls back to the default. -/
def jsOrPrice (o : Option ℚ) (d : ℚ) : ℚ :=
  match o with
  | some p => if p = 0 then d else p
  | none => d

/-- positions.find(p => p.symbol === symbol). -/
def findPosition (positions : List ScalpPosition) (symbol : String) :
    Option ScalpPosition :=
  positions.find? (fun p => p.symbol == symbol)

/-- closePosition: computes the realized P&L of the position (long or
short), appends the closing trade, removes the position, and returns the
original reservation (full cost for a long, the 20 percent margin for a
short) plus the realized P&L to the available balance. -/
def closePosition (quote : String → Option ℚ) (now : ℤ) (symbolToClose reason : String)
    (s : ScalpState) : ScalpState :=
  match findPosition s.positions symbolToClose with
  | none => s
  | some position =>
    let currentPrice := jsOrPrice (quote symbolToClose) position.avgBuyPrice
    let holdTimeMinutes := Int.fdiv (now - position.entryTime) 60000
    let actualPnL :=
      if 0 < position.quantity then
        (currentPrice - position.avgBuyPrice) * (position.quantity : ℚ)
      else
        (position.avgBuyPrice - currentPrice) * ((|position.quantity| : ℤ) : ℚ)
    let sellTrade : ScalpTrade :=
      { id := "scalp-exit-" ++ toString now
        symbol := symbolToClose
        type := if 0 < position.quantity then .SELL else .BUY
        price := currentPrice
        quantity := |position.quantity|
        timestamp := now
        signal := reason
        confidence := 100
        pnl := some actualPnL
        exitPrice := some currentPrice
        holdTime := some holdTimeMinutes }
    let originalDeduction :=
      if 0 < position.quantity then
        ((|position.quantity| : ℤ) : ℚ) * position.avgBuyPrice
      else
        ((|position.quantity| : ℤ) : ℚ) * position.avgBuyPrice * (2 / 10)
    { s with
      positions := s.positions.filter (fun p => p.symbol != symbolToClose)
      trades := s.trades ++ [sellTrade]
      availableBalance := s.availableBalance + originalDeduction + actualPnL
      totalPnL := s.totalPnL + actualPnL
      dayPnL := s.dayPnL + actualPnL }

/-- The technicalAnalysis fields read by analyzeScalpingSignal. -/
structure ScalpTechnicals where
  rsi : ℚ
  vwap : ℚ
  ma50 : ℚ
  ma100 : ℚ
deriving Repr, DecidableEq

/-- The record analyzeScalpingSignal returns. -/
structure ScalpAnalysis where
  signal : ScalpSignal
  confidence : ℚ
  rsi : ℚ
  vwap : ℚ
  ma50 : ℚ
  ma100 : ℚ
  currentPrice : ℚ
deriving Repr, DecidableEq

/-- analyzeScalpingSignal: returns none when the technicalAnalysis object
is missing or any of rsi, vwap, ma50, ma100, currentPrice is zero or
missing (JavaScript falsy); otherwise runs the ordered signal cascade. -/
def analyzeScalpingSignal (minConfidence : ℚ) (ta : Option ScalpTechnicals)
    (quotePrice : Option ℚ) : Option ScalpAnalysis :=
  match ta with
  | none => none
  | some t =>
    let currentPrice := quotePrice.getD 0
    if t.rsi = 0 ∨ t.vwap = 0 ∨ t.ma50 = 0 ∨ t.ma100 = 0 ∨ currentPrice = 0 then none
    else
      let isAggressiveMode := minConfidence ≤ 60
      let rsiOversoldLevel : ℚ := if isAggressiveMode then 45 else 35
      let rsiOverboughtLevel : ℚ := if isAggressiveMode then 55 else 65
      let sigConf : ScalpSignal × ℚ :=
        if t.rsi ≤ 30 ∧ currentPrice > t.vwap ∧ t.ma50 > t.ma100 then
          (.STRONG_BUY, 95)
        else if t.rsi ≤ 35 ∧ currentPrice > t.vwap ∧ currentPrice > t.ma50 then
          (.BUY, 85)
        else if t.rsi ≤ rsiOversoldLevel ∧ currentPrice > t.vwap then
          (.BUY, 80)
        else if t.rsi ≤ 50 ∧ currentPrice > t.vwap ∧ t.ma50 > t.ma100 then
          (.BUY, 75)
        else if t.rsi ≤ 55 ∧ currentPrice > t.vwap ∧ currentPrice > t.ma50 ∧
                isAggressiveMode then
          (.BUY, 65)
        else if t.rsi ≤ 60 ∧ currentPrice > t.vwap ∧ isAggressiveMode then
          (.BUY, 55)
        else if t.rsi ≥ 70 ∧ ¬currentPrice > t.vwap ∧ t.ma50 < t.ma100 then
          (.STRONG_SELL, 95)
        else if t.rsi ≥ 65 ∧ ¬currentPrice > t.vwap ∧ currentPrice < t.ma50 then
          (.SELL, 85)
        else if t.rsi ≥ rsiOverboughtLevel ∧ ¬currentPrice > t.vwap then
          (.SELL, 80)
        else if t.rsi ≥ 50 ∧ ¬currentPrice > t.vwap ∧ t.ma50 < t.ma100 then
          (.SELL, 75)
        else if t.rsi ≥ 45 ∧ ¬currentPrice > t.vwap ∧ currentPrice < t.ma50 ∧
                isAggressiveMode then
          (.SELL, 65)
        else if t.rsi ≥ 40 ∧ ¬currentPrice > t.vwap ∧ isAggressiveMode then
          (.SELL, 55)
        else if isAggressiveMode ∧ t.ma50 > t.ma100 ∧ currentPrice > t.vwap ∧
                t.rsi ≥ 40 ∧ t.rsi ≤ 60 then
          (.BUY, 60)
        else if isAggressiveMode ∧ t.ma50 < t.ma100 ∧ ¬currentPrice > t.vwap ∧
                t.rsi ≥ 40 ∧ t.rsi ≤ 60 then
          (.SELL, 60)
        else if isAggressiveMode ∧ t.ma50 > t.ma100 ∧ t.rsi ≥ 35 then
          (.BUY, 52)
        else if isAggressiveMode ∧ t.ma50 < t.ma100 ∧ t.rsi ≤ 65 then
          (.SELL, 52)
        else (.HOLD, 0)
      some { signal := sigConf.1, confidence := sigConf.2, rsi := t.rsi,
             vwap := t.vwap, ma50 := t.ma50, ma100 := t.ma100,
             currentPrice := currentPrice }

/-- The sizing rule of executeScalpingTrade:
Math.floor(Math.min(maxPositionSize, availableBalance * 0.9) / currentPrice). -/
def scalpQuantity (maxPositionSize availableBalance currentPrice : ℚ) : ℤ :=
  ⌊min maxPositionSize (availableBalance * (9 / 10)) / currentPrice⌋

/-- The state produced by the BUY branch of executeScalpingTrade once all
its guards have passed: deduct the full cost, append the trade and the
long position, stamp the cooldown clock. -/
def openLongState (cfg : ScalpConfig) (symbol : String) (a : ScalpAnalysis) (now : ℤ)
    (quantity : ℤ) (s : ScalpState) : ScalpState :=
  let totalCost := (quantity : ℚ) * a.currentPrice
  let trade : ScalpTrade :=
    { id := "scalp-" ++ toString now ++ "-" ++ symbol
      symbol := symbol
      type := .BUY
      price := a.currentPrice
      quantity := quantity
      timestamp := now
      signal := a.signal.name
      confidence := a.confidence
      pnl := some 0
      exitPrice := none
      holdTime := none }
  let newPosition : ScalpPosition :=
    { symbol := symbol
      quantity := quantity
      avgBuyPrice := a.currentPrice
      currentValue := totalCost
      unrealizedPnL := 0
      entryTime := now
      targetPrice := a.currentPrice * (1 + cfg.takeProfitPercent / 100)
      stopLossPrice := a.currentPrice * (1 - cfg.stopLossPercent / 100) }
  { s with
    trades := trade :: s.trades
    positions := s.positions ++ [newPosition]
    availableBalance := s.availableBalance - totalCost
    lastTradeTimes := fun x => if x = symbol then now else s.lastTradeTimes x }

/-- The state produced by the short branch of executeScalpingTrade once
all its guards have passed: reserve the 20 percent margin, append the
trade and the negative-quantity position, stamp the cooldown clock. -/
def openShortState (cfg : ScalpConfig) (symbol : String) (a : ScalpAnalysis) (now : ℤ)
    (quantity : ℤ) (s : ScalpState) : ScalpState :=
  let totalCost := (quantity : ℚ) * a.currentPrice
  let trade : ScalpTrade :=
    { id := "scalp-" ++ toString now ++ "-" ++ symbol
      symbol := symbol
      type := .SELL
      price := a.currentPrice
      quantity := quantity
      timestamp := now
      signal := a.signal.name
      confidence := a.confidence
      pnl := some 0
      exitPrice := none
      holdTime := none }
  let newPosition : ScalpPosition :=
    { symbol := symbol
      quantity := -quantity
      avgBuyPrice := a.currentPrice
      currentValue := -totalCost
      unrealizedPnL := 0
      entryTime := now
      targetPrice := a.currentPrice * (1 - cfg.takeProfitPercent / 100)
      stopLossPrice := a.currentPrice * (1 + cfg.stopLossPercent / 100) }
  { s with
    trades := trade :: s.trades
    positions := s.positions ++ [newPosition]
    availableBalance := s.availableBalance - totalCost * (2 / 10)
    lastTradeTimes := fun x => if x = symbol then now else s.lastTradeTimes x }

/-- executeScalpingTrade: the per-symbol decision step of the scalping
state machine, with its guards in source order (enabled/analysis present,
confidence threshold, 5-second cooldown, daily loss limit), then the
BUY-entry, SELL-close/short-entry, or no-op branch. -/
def executeScalpingTrade (cfg : ScalpConfig) (isEnabled : Bool) (symbol : String)
    (analysis : Option ScalpAnalysis) (now : ℤ) (quote : String → Option ℚ)
    (s : ScalpState) : ScalpState :=
  match analysis with
  | none => s
  | some a =>
    if isEnabled = false then s
    else if a.confidence < cfg.minConfidence then s
    else
      let existingPosition := findPosition s.positions symbol
      let lastTrade := s.lastTradeTimes symbol
      if now - lastTrade < 5000 then s
      else if cfg.maxDailyLoss ≤ |s.dayPnL| then s
      else if (a.signal = .STRONG_BUY ∨ a.signal = .BUY) ∧ existingPosition = none ∧
              s.positions.length < cfg.maxPositions then
        if s.availableBalance < 500 then s
        else
          let quantity := scalpQuantity cfg.maxPositionSize s.availableBalance a.currentPrice
          if quantity ≤ 0 then s
          else openLongState cfg symbol a now quantity s
      else if a.signal = .STRONG_SELL ∨ a.signal = .SELL then
        if existingPosition.isSome then
          let s' := closePosition quote now symbol (a.signal.name ++ " Signal") s
          { s' with lastTradeTimes := fun x => if x = symbol then now else s'.lastTradeTimes x }
        else if s.positions.length < cfg.maxPositions then
          if s.availableBalance < 500 then s
          else
            let quantity := scalpQuantity cfg.maxPositionSize s.availableBalance a.currentPrice
            if quantity ≤ 0 then s
            else openShortState cfg symbol a now quantity s
        else s
      else s

/-- A sequence of decision steps (symbol, analysis, clock) applied in
order, as the tick loop does. -/
def runTicks (cfg : ScalpConfig) (isEnabled : Bool) (quote : String → Option ℚ)
    (steps : List (String × Option ScalpAnalysis × ℤ)) (s : ScalpState) : ScalpState :=
  steps.foldl
    (fun st step => executeScalpingTrade cfg isEnabled step.1 step.2.1 step.2.2 quote st) s

/-- The hard invariant of the spec's data model: at most one open
position per symbol. -/
def uniquePerSymbol (s : ScalpState) : Prop :=
  s.positions.Pairwise (fun p q => p.symbol ≠ q.symbol)

/-! ## Helper lemmas -/

theorem find?_append_of_none {α : Type} (p : α → Bool) {l₁ : List α} (l₂ : List α)
    (h : l₁.find? p = none) : (l₁ ++ l₂).find? p = l₂.find? p := by
  induction l₁ with
  | nil => simp
  | cons a l ih =>
    rw [List.cons_append]
    cases hpa : p a with
    | true => simp [List.find?_cons_of_pos _ hpa] at h
    | false =>
      rw [List.find?_cons_of_neg _ (by simp [hpa])] at h
      rw [List.find?_cons_of_neg _ (by simp [hpa])]
      exact ih h

/-- One decision step is a no-op once the daily loss limit is breached:
the guard at the top of executeScalpingTrade fires before any branch can
touch the state. -/
theorem executeScalpingTrade_frozen_of_dailyLoss (cfg : ScalpConfig) (en : Bool)
    (symbol : String) (analysis : Option ScalpAnalysis) (now : ℤ)
    (quote : String → Option ℚ) (s : ScalpState)
    (h : cfg.maxDailyLoss ≤ |s.dayPnL|) :
    executeScalpingTrade cfg en symbol analysis now quote s = s := by
  cases analysis with
  | none => rfl
  | some a =>
    simp only [executeScalpingTrade]
    split_ifs <;> rfl

theorem uniquePerSymbol_closePosition (quote : String → Option ℚ) (now : ℤ)
    (sym r : String) (s : ScalpState) (h : uniquePerSymbol s) :
    uniquePerSymbol (closePosition quote now sym r s) := by
  unfold closePosition
  cases hf : findPosition s.positions sym with
  | none => exact h
  | some p =>
    show (s.positions.filter _).Pairwise _
    exact h.sublist (List.filter_sublist _)

theorem uniquePerSymbol_openLongState (cfg : ScalpConfig) (symbol : String)
    (a : ScalpAnalysis) (now q : ℤ) (s : ScalpState)
    (hnone : findPosition s.positions symbol = none) (h : uniquePerSymbol s) :
    uniquePerSymbol (openLongState cfg symbol a now q s) := by
  show (s.positions ++ [_]).Pairwise _
  rw [List.pairwise_append]
  refine ⟨h, List.pairwise_singleton _ _, ?_⟩
  intro p hp b hb
  rw [List.mem_singleton] at hb
  subst hb
  unfold findPosition at hnone
  have := List.find?_eq_none.mp hnone p hp
  simpa using this

theorem uniquePerSymbol_openShortState (cfg : ScalpConfig) (symbol : String)
    (a : ScalpAnalysis) (now q : ℤ) (s : ScalpState)
    (hnone : findPosition s.positions symbol = none) (h : uniquePerSymbol s) :
    uniquePerSymbol (openShortState cfg symbol a now q s) := by
  show (s.positions ++ [_]).Pairwise _
  rw [List.pairwise_append]
  refine ⟨h, List.pairwise_singleton _ _, ?_⟩
  intro p hp b hb
  rw [List.mem_singleton] at hb
  subst hb
  unfold findPosition at hnone
  have := List.find?_eq_none.mp hnone p hp
  simpa using this

/-! ## Claim theorems -/

/-- C5: in every account state in which the absolute day P&L has reached
the configured daily loss limit, a decision step appends no trade, opens
or closes no position, and leaves every balance unchanged - and therefore
so does any sequence of such steps, until the daily P&L is reset. -/
theorem dailyLossLimit_blocks_all_entries (cfg : ScalpConfig) (en : Bool)
    (quote : String → Option ℚ) (symbol : String) (analysis : Option ScalpAnalysis)
    (now : ℤ) (steps : List (String × Option ScalpAnalysis × ℤ)) (s : ScalpState)
    (h : cfg.maxDailyLoss ≤ |s.dayPnL|) :
    executeScalpingTrade cfg en symbol analysis now quote s = s ∧
    runTicks cfg en quote steps s = s := by
  refine ⟨executeScalpingTrade_frozen_of_dailyLoss cfg en symbol analysis now quote s h, ?_⟩
  induction steps with
  | nil => rfl
  | cons st rest ih =>
    simp only [runTicks, List.foldl_cons] at ih ⊢
    rw [executeScalpingTrade_frozen_of_dailyLoss cfg en st.1 st.2.1 st.2.2 quote s h]
    exact ih

/-- Witness for C5 at a concrete breached state. -/
theorem dailyLossLimit_blocks_all_entries_witness :
    (2500 : ℚ) ≤ |(-2500 : ℚ)| ∧
    executeScalpingTrade ⟨50, 10000, 2500, 5, 3 / 2, 11 / 5, 15⟩ true "TCS"
      (some ⟨.BUY, 95, 25, 99, 98, 97, 100⟩) 100000 (fun _ => none)
      ⟨[], [], 0, -2500, 50000, fun _ => 0⟩ =
      ⟨[], [], 0, -2500, 50000, fun _ => 0⟩ :=
  ⟨by norm_num,
   (dailyLossLimit_blocks_all_entries ⟨50, 10000, 2500, 5, 3 / 2, 11 / 5, 15⟩ true
      (fun _ => none) "TCS" (some ⟨.BUY, 95, 25, 99, 98, 97, 100⟩) 100000 []
      ⟨[], [], 0, -2500, 50000, fun _ => 0⟩ (by norm_num)).1⟩

/-- Shared characterization of closePosition on a present position. -/
theorem closePosition_spec (quote : String → Option ℚ) (now : ℤ)
    (symbolToClose reason : String) (s : ScalpState) (position : ScalpPosition)
    (hfind : findPosition s.positions symbolToClose = some position) :
    (closePosition quote now symbolToClose reason s).availableBalance =
      s.availableBalance +
        (if 0 < position.quantity then
          ((|position.quantity| : ℤ) : ℚ) * position.avgBuyPrice
         else ((|position.quantity| : ℤ) : ℚ) * position.avgBuyPrice * (2 / 10)) +
        (if 0 < position.quantity then
          (jsOrPrice (quote symbolToClose) position.avgBuyPrice - position.avgBuyPrice) *
            (position.quantity : ℚ)
         else (position.avgBuyPrice - jsOrPrice (quote symbolToClose) position.avgBuyPrice) *
            ((|position.quantity| : ℤ) : ℚ)) ∧
    (closePosition quote now symbolToClose reason s).totalPnL =
      s.totalPnL +
        (if 0 < position.quantity then
          (jsOrPrice (quote symbolToClose) position.avgBuyPrice - position.avgBuyPrice) *
            (position.quantity : ℚ)
         else (position.avgBuyPrice - jsOrPrice (quote symbolToClose) position.avgBuyPrice) *
            ((|position.quantity| : ℤ) : ℚ)) ∧
    ((closePosition quote now symbolToClose reason s).trades.getLast?).map ScalpTrade.pnl =
      some (some
        (if 0 < position.quantity then
          (jsOrPrice (quote symbolToClose) position.avgBuyPrice - position.avgBuyPrice) *
            (position.quantity : ℚ)
         else (position.avgBuyPrice - jsOrPrice (quote symbolToClose) position.avgBuyPrice) *
            ((|position.quantity| : ℤ) : ℚ))) := by
  refine ⟨?_, ?_, ?_⟩ <;> simp [closePosition, hfind, List.getLast?_concat]

/-- C1: closing a position realizes (exit - avg) * quantity for a long and
(avg - exit) * abs(quantity) for a short, records that P&L on the closing
trade, and returns to the available balance the original reservation (full
cost for a long, the 20 percent margin for a short) plus that realized
P&L. -/
theorem closePosition_realizedPnL_and_balance (quote : String → Option ℚ) (now : ℤ)
    (symbolToClose reason : String) (s : ScalpState) (position : ScalpPosition)
    (hfind : findPosition s.positions symbolToClose = some position) :
    (closePosition quote now symbolToClose reason s).availableBalance =
      s.availableBalance +
        (if 0 < position.quantity then
          ((|position.quantity| : ℤ) : ℚ) * position.avgBuyPrice
         else ((|position.quantity| : ℤ) : ℚ) * position.avgBuyPrice * (2 / 10)) +
        (if 0 < position.quantity then
          (jsOrPrice (quote symbolToClose) position.avgBuyPrice - position.avgBuyPrice) *
            (position.quantity : ℚ)
         else (position.avgBuyPrice - jsOrPrice (quote symbolToClose) position.avgBuyPrice) *
            ((|position.quantity| : ℤ) : ℚ)) ∧
    (closePosition quote now symbolToClose reason s).totalPnL =
      s.totalPnL +
        (if 0 < position.quantity then
          (jsOrPrice (quote symbolToClose) position.avgBuyPrice - position.avgBuyPrice) *
            (position.quantity : ℚ)
         else (position.avgBuyPrice - jsOrPrice (quote symbolToClose) position.avgBuyPrice) *
            ((|position.quantity| : ℤ) : ℚ)) ∧
    ((closePosition quote now symbolToClose reason s).trades.getLast?).map ScalpTrade.pnl =
      some (some
        (if 0 < position.quantity then
          (jsOrPrice (quote symbolToClose) position.avgBuyPrice - position.avgBuyPrice) *
            (position.quantity : ℚ)
         else (position.avgBuyPrice - jsOrPrice (quote symbolToClose) position.avgBuyPrice) *
            ((|position.quantity| : ℤ) : ℚ))) :=
  closePosition_spec quote now symbolToClose reason s position hfind

/-- Witness for C1: the spec's short scenario.  From cash 50,000 a SELL
signal at price 100 opens a short of 100 units (margin 2,000, cash
48,000); closing at 97 realizes 300 and returns the cash to 50,300. -/
theorem closePosition_realizedPnL_and_balance_witness :
    (executeScalpingTrade ⟨50, 10000, 2500, 5, 3 / 2, 11 / 5, 15⟩ true "TCS"
        (some ⟨.SELL, 95, 50, 99, 98, 97, 100⟩) 100000 (fun _ => some 97)
        ⟨[], [], 0, 0, 50000, fun _ => 0⟩).availableBalance = 48000 ∧
    (closePosition (fun _ => some 97) 160000 "TCS" "Take Profit (Short)"
        (executeScalpingTrade ⟨50, 10000, 2500, 5, 3 / 2, 11 / 5, 15⟩ true "TCS"
          (some ⟨.SELL, 95, 50, 99, 98, 97, 100⟩) 100000 (fun _ => some 97)
          ⟨[], [], 0, 0, 50000, fun _ => 0⟩)).availableBalance = 50300 ∧
    (closePosition (fun _ => some 97) 160000 "TCS" "Take Profit (Short)"
        (executeScalpingTrade ⟨50, 10000, 2500, 5, 3 / 2, 11 / 5, 15⟩ true "TCS"
          (some ⟨.SELL, 95, 50, 99, 98, 97, 100⟩) 100000 (fun _ => some 97)
          ⟨[], [], 0, 0, 50000, fun _ => 0⟩)).totalPnL = 300 := by
  have hs1 : executeScalpingTrade ⟨50, 10000, 2500, 5, 3 / 2, 11 / 5, 15⟩ true "TCS"
      (some ⟨.SELL, 95, 50, 99, 98, 97, 100⟩) 100000 (fun _ => some 97)
      ⟨[], [], 0, 0, 50000, fun _ => 0⟩ =
      ⟨[⟨"scalp-" ++ toString (100000 : ℤ) ++ "-" ++ "TCS", "TCS", .SELL, 100, 100, 100000,
          "SELL", 95, some 0, none, none⟩],
       [⟨"TCS", -100, 100, -10000, 0, 100000, 489 / 5, 203 / 2⟩],
       0, 0, 48000, fun x => if x = "TCS" then 100000 else 0⟩ := by
    norm_num [executeScalpingTrade, findPosition, scalpQuantity, openShortState]
    rw [if_neg (by decide)]
    simp [ScalpSignal.name]
  rw [hs1]
  have h := closePosition_realizedPnL_and_balance (fun _ => some 97) 160000 "TCS"
    "Take Profit (Short)"
    ⟨[⟨"scalp-" ++ toString (100000 : ℤ) ++ "-" ++ "TCS", "TCS", .SELL, 100, 100, 100000,
        "SELL", 95, some 0, none, none⟩],
     [⟨"TCS", -100, 100, -10000, 0, 100000, 489 / 5, 203 / 2⟩],
     0, 0, 48000, fun x => if x = "TCS" then 100000 else 0⟩
    ⟨"TCS", -100, 100, -10000, 0, 100000, 489 / 5, 203 / 2⟩ (by simp [findPosition])
  refine ⟨rfl, ?_, ?_⟩
  · rw [h.1]; norm_num [jsOrPrice]
  · rw [h.2.1]; norm_num [jsOrPrice]

/-- C2: opening a position (long or short) through executeScalpingTrade
and immediately closing it while the price is unchanged realizes exactly
zero P&L and returns the available balance to exactly its pre-entry
value. -/
theorem open_close_roundtrip (cfg : ScalpConfig) (symbol : String) (a : ScalpAnalysis)
    (now now' : ℤ) (quote : String → Option ℚ) (reason : String) (s : ScalpState)
    (hconf : ¬ a.confidence < cfg.minConfidence)
    (hcool : ¬ now - s.lastTradeTimes symbol < 5000)
    (hday : ¬ cfg.maxDailyLoss ≤ |s.dayPnL|)
    (hnopos : findPosition s.positions symbol = none)
    (hcount : s.positions.length < cfg.maxPositions)
    (hbal : ¬ s.availableBalance < 500)
    (hqty : ¬ scalpQuantity cfg.maxPositionSize s.availableBalance a.currentPrice ≤ 0)
    (hquote : jsOrPrice (quote symbol) a.currentPrice = a.currentPrice) :
    ((a.signal = .STRONG_BUY ∨ a.signal = .BUY) →
      (closePosition quote now' symbol reason
          (executeScalpingTrade cfg true symbol (some a) now quote s)).availableBalance =
        s.availableBalance ∧
      (closePosition quote now' symbol reason
          (executeScalpingTrade cfg true symbol (some a) now quote s)).totalPnL =
        s.totalPnL) ∧
    ((a.signal = .STRONG_SELL ∨ a.signal = .SELL) →
      (closePosition quote now' symbol reason
          (executeScalpingTrade cfg true symbol (some a) now quote s)).availableBalance =
        s.availableBalance ∧
      (closePosition quote now' symbol reason
          (executeScalpingTrade cfg true symbol (some a) now quote s)).totalPnL =
        s.totalPnL) := by
  have hqpos : 0 < scalpQuantity cfg.maxPositionSize s.availableBalance a.currentPrice :=
    not_le.mp hqty
  constructor
  · intro hsig
    have hnsell : ¬ (a.signal = .STRONG_SELL ∨ a.signal = .SELL) := by
      rcases hsig with h | h <;> rw [h] <;> decide
    have hexec : executeScalpingTrade cfg true symbol (some a) now quote s =
        openLongState cfg symbol a now
          (scalpQuantity cfg.maxPositionSize s.availableBalance a.currentPrice) s := by
      simp only [executeScalpingTrade]
      rw [if_neg (by simp), if_neg hconf, if_neg hcool, if_neg hday,
        if_pos ⟨hsig, hnopos, hcount⟩, if_neg hbal, if_neg hqty]
    rw [hexec]
    have hfind : findPosition (openLongState cfg symbol a now
        (scalpQuantity cfg.maxPositionSize s.availableBalance a.currentPrice) s).positions
        symbol = some
        ⟨symbol, scalpQuantity cfg.maxPositionSize s.availableBalance a.currentPrice,
         a.currentPrice,
         (scalpQuantity cfg.maxPositionSize s.availableBalance a.currentPrice : ℚ) *
           a.currentPrice, 0, now,
         a.currentPrice * (1 + cfg.takeProfitPercent / 100),
         a.currentPrice * (1 - cfg.stopLossPercent / 100)⟩ := by
      show findPosition (s.positions ++ [_]) symbol = _
      unfold findPosition at hnopos ⊢
      rw [find?_append_of_none _ _ hnopos]
      simp
    have h := closePosition_spec quote now' symbol reason
      (openLongState cfg symbol a now
        (scalpQuantity cfg.maxPositionSize s.availableBalance a.currentPrice) s)
      _ hfind
    refine ⟨?_, ?_⟩
    · rw [h.1]
      show s.availableBalance -
          (scalpQuantity cfg.maxPositionSize s.availableBalance a.currentPrice : ℚ) *
            a.currentPrice + _ + _ = s.availableBalance
      rw [if_pos hqpos, if_pos hqpos]
      simp only [hquote]
      rw [abs_of_pos hqpos]
      ring
    · rw [h.2.1]
      show s.totalPnL + _ = s.totalPnL
      rw [if_pos hqpos]
      simp only [hquote]
      ring
  · intro hsig
    have hnbuy : ¬ ((a.signal = .STRONG_BUY ∨ a.signal = .BUY) ∧
        findPosition s.positions symbol = none ∧
        s.positions.length < cfg.maxPositions) := by
      rintro ⟨hb, -, -⟩
      rcases hsig with h | h <;> rcases hb with h' | h' <;> rw [h] at h' <;> exact absurd h' (by decide)
    have hexec : executeScalpingTrade cfg true symbol (some a) now quote s =
        openShortState cfg symbol a now
          (scalpQuantity cfg.maxPositionSize s.availableBalance a.currentPrice) s := by
      simp only [executeScalpingTrade]
      rw [if_neg (by simp), if_neg hconf, if_neg hcool, if_neg hday, if_neg hnbuy,
        if_pos hsig]
      rw [hnopos]
      show (if (none : Option ScalpPosition).isSome = true then _ else _) = _
      rw [if_neg (by simp), if_pos hcount, if_neg hbal, if_neg hqty]
    rw [hexec]
    have hqneg : ¬ 0 < -(scalpQuantity cfg.maxPositionSize s.availableBalance a.currentPrice) := by
      omega
    have hfind : findPosition (openShortState cfg symbol a now
        (scalpQuantity cfg.maxPositionSize s.availableBalance a.currentPrice) s).positions
        symbol = some
        ⟨symbol, -(scalpQuantity cfg.maxPositionSize s.availableBalance a.currentPrice),
         a.currentPrice,
         -((scalpQuantity cfg.maxPositionSize s.availableBalance a.currentPrice : ℚ) *
           a.currentPrice), 0, now,
         a.currentPrice * (1 - cfg.takeProfitPercent / 100),
         a.currentPrice * (1 + cfg.stopLossPercent / 100)⟩ := by
      show findPosition (s.positions ++ [_]) symbol = _
      unfold findPosition at hnopos ⊢
      rw [find?_append_of_none _ _ hnopos]
      simp
    have h := closePosition_spec quote now' symbol reason
      (openShortState cfg symbol a now
        (scalpQuantity cfg.maxPositionSize s.availableBalance a.currentPrice) s)
      _ hfind
    refine ⟨?_, ?_⟩
    · rw [h.1]
      show s.availableBalance -
          (scalpQuantity cfg.maxPositionSize s.availableBalance a.currentPrice : ℚ) *
            a.currentPrice * (2 / 10) + _ + _ = s.availableBalance
      rw [if_neg hqneg, if_neg hqneg]
      simp only [hquote]
      rw [abs_neg, abs_of_pos hqpos]
      ring
    · rw [h.2.1]
      show s.totalPnL + _ = s.totalPnL
      rw [if_neg hqneg]
      simp only [hquote]
      ring

/-- Witness for C2: a concrete long entry at price 100 from cash 50,000,
closed at the unchanged price, lands back on exactly 50,000 with zero
realized P&L. -/
theorem open_close_roundtrip_witness :
    ¬ scalpQuantity 10000 50000 100 ≤ 0 ∧
    (closePosition (fun _ => some 100) 160000 "TCS" "SELL Signal"
        (executeScalpingTrade ⟨50, 10000, 2500, 5, 3 / 2, 11 / 5, 15⟩ true "TCS"
          (some ⟨.BUY, 95, 25, 99, 98, 97, 100⟩) 100000 (fun _ => some 100)
          ⟨[], [], 0, 0, 50000, fun _ => 0⟩)).availableBalance = 50000 ∧
    (closePosition (fun _ => some 100) 160000 "TCS" "SELL Signal"
        (executeScalpingTrade ⟨50, 10000, 2500, 5, 3 / 2, 11 / 5, 15⟩ true "TCS"
          (some ⟨.BUY, 95, 25, 99, 98, 97, 100⟩) 100000 (fun _ => some 100)
          ⟨[], [], 0, 0, 50000, fun _ => 0⟩)).totalPnL = 0 := by
  have h := (open_close_roundtrip ⟨50, 10000, 2500, 5, 3 / 2, 11 / 5, 15⟩ "TCS"
    ⟨.BUY, 95, 25, 99, 98, 97, 100⟩ 100000 160000 (fun _ => some 100) "SELL Signal"
    ⟨[], [], 0, 0, 50000, fun _ => 0⟩ (by norm_num) (by norm_num) (by norm_num) rfl
    (by norm_num) (by norm_num) (by norm_num [scalpQuantity])
    (by norm_num [jsOrPrice])).1 (Or.inr rfl)
  exact ⟨by norm_num [scalpQuantity], h.1, h.2⟩

theorem rsiAvgGain_nonneg (data : List TechnicalData) (period : ℕ) :
    0 ≤ rsiAvgGain data period := by
  unfold rsiAvgGain
  apply div_nonneg _ (by positivity)
  apply List.sum_nonneg
  intro x hx
  have hx' := List.drop_subset _ _ hx
  simp only [List.mem_map] at hx'
  obtain ⟨c, -, rfl⟩ := hx'
  split_ifs with h
  · linarith
  · rfl

theorem rsiAvgLoss_nonneg (data : List TechnicalData) (period : ℕ) :
    0 ≤ rsiAvgLoss data period := by
  unfold rsiAvgLoss
  apply div_nonneg _ (by positivity)
  apply List.sum_nonneg
  intro x hx
  have hx' := List.drop_subset _ _ hx
  simp only [List.mem_map] at hx'
  obtain ⟨c, -, rfl⟩ := hx'
  split_ifs with h
  · exact abs_nonneg c
  · rfl

theorem specMinLow_le_of_mem {data : List TechnicalData} {p : TechnicalData}
    (hp : p ∈ data) : specMinLow data ≤ p.low := by
  induction data with
  | nil => cases hp
  | cons q l ih =>
    cases l with
    | nil =>
      rw [List.mem_singleton] at hp
      subst hp
      exact le_refl _
    | cons r t =>
      rcases List.mem_cons.mp hp with h | h
      · subst h
        exact min_le_left _ _
      · exact le_trans (min_le_right _ _) (ih h)

theorem le_specMaxHigh_of_mem {data : List TechnicalData} {p : TechnicalData}
    (hp : p ∈ data) : p.high ≤ specMaxHigh data := by
  induction data with
  | nil => cases hp
  | cons q l ih =>
    cases l with
    | nil =>
      rw [List.mem_singleton] at hp
      subst hp
      exact le_refl _
    | cons r t =>
      rcases List.mem_cons.mp hp with h | h
      · subst h
        exact le_max_left _ _
      · exact le_trans (ih h) (le_max_right _ _)

theorem weighted_typical_sum_bounds (data : List TechnicalData) (m M : ℚ)
    (hv : ∀ p ∈ data, 0 ≤ p.volume)
    (hm : ∀ p ∈ data, m ≤ typicalPrice p)
    (hM : ∀ p ∈ data, typicalPrice p ≤ M) :
    m * totalVolume data ≤ totalVolumePrice data ∧
    totalVolumePrice data ≤ M * totalVolume data := by
  induction data with
  | nil => simp [totalVolume, totalVolumePrice]
  | cons p l ih =>
    have hvp := hv p (List.mem_cons_self p l)
    have hmp := hm p (List.mem_cons_self p l)
    have hMp := hM p (List.mem_cons_self p l)
    have ih' := ih (fun q hq => hv q (List.mem_cons_of_mem _ hq))
      (fun q hq => hm q (List.mem_cons_of_mem _ hq))
      (fun q hq => hM q (List.mem_cons_of_mem _ hq))
    simp only [totalVolume, totalVolumePrice, List.map_cons, List.sum_cons] at ih' ⊢
    have h1 : m * p.volume ≤ typicalPrice p * p.volume :=
      mul_le_mul_of_nonneg_right hmp hvp
    have h2 : typicalPrice p * p.volume ≤ M * p.volume :=
      mul_le_mul_of_nonneg_right hMp hvp
    constructor
    · rw [mul_add]
      exact add_le_add h1 ih'.1
    · rw [mul_add]
      exact add_le_add h2 ih'.2

theorem round2_intCast (n : ℤ) : round2 (n : ℚ) = n := by
  unfold round2
  rw [show ((n : ℚ) * 100) = ((n * 100 : ℤ) : ℚ) by push_cast; ring, round_intCast]
  push_cast
  exact mul_div_cancel_right₀ _ (by norm_num)

set_option maxHeartbeats 1000000 in
/-- Exhaustive case analysis of one decision step on a present analysis:
it either leaves the state untouched, opens a long (only with no existing
position for the symbol, sized by scalpQuantity), closes an existing
position on a SELL-kind signal, or opens a short (only with no existing
position, same sizing). -/
theorem executeScalpingTrade_cases (cfg : ScalpConfig) (en : Bool) (symbol : String)
    (a : ScalpAnalysis) (now : ℤ) (quote : String → Option ℚ) (s : ScalpState) :
    executeScalpingTrade cfg en symbol (some a) now quote s = s ∨
    (findPosition s.positions symbol = none ∧ (a.signal = .STRONG_BUY ∨ a.signal = .BUY) ∧
      ¬ s.availableBalance < 500 ∧
      ¬ scalpQuantity cfg.maxPositionSize s.availableBalance a.currentPrice ≤ 0 ∧
      executeScalpingTrade cfg en symbol (some a) now quote s =
        openLongState cfg symbol a now
          (scalpQuantity cfg.maxPositionSize s.availableBalance a.currentPrice) s) ∨
    ((a.signal = .STRONG_SELL ∨ a.signal = .SELL) ∧
      (findPosition s.positions symbol).isSome = true ∧
      executeScalpingTrade cfg en symbol (some a) now quote s =
        { closePosition quote now symbol (a.signal.name ++ " Signal") s with
          lastTradeTimes := fun x => if x = symbol then now else
            (closePosition quote now symbol (a.signal.name ++ " Signal") s).lastTradeTimes x }) ∨
    (findPosition s.positions symbol = none ∧ (a.signal = .STRONG_SELL ∨ a.signal = .SELL) ∧
      ¬ s.availableBalance < 500 ∧
      ¬ scalpQuantity cfg.maxPositionSize s.availableBalance a.currentPrice ≤ 0 ∧
      executeScalpingTrade cfg en symbol (some a) now quote s =
        openShortState cfg symbol a now
          (scalpQuantity cfg.maxPositionSize s.availableBalance a.currentPrice) s) := by
  simp only [executeScalpingTrade]
  split_ifs with h1 h2 h3 h4 h5 h6 h7 h8 h9 h10 h11 h12 <;>
    first
      | (left; rfl)
      | exact Or.inr (Or.inl ⟨h5.2.1, h5.1, h6, h7, rfl⟩)
      | exact Or.inr (Or.inr (Or.inl ⟨h8, h9, rfl⟩))
      | (refine Or.inr (Or.inr (Or.inr ⟨?_, h8, h11, h12, rfl⟩))
         rcases hf : findPosition s.positions symbol with - | p
         · rfl
         · rw [hf] at h9; simp at h9)

/-- C3: a decision step preserves the at-most-one-position-per-symbol
invariant, and a BUY-kind entry attempt for a symbol that already has an
open position is rejected outright: the state (trades, positions,
balances, accumulators) is returned unchanged. -/
theorem uniquePosition_invariant_and_buy_rejection (cfg : ScalpConfig) (en : Bool)
    (symbol : String) (a : ScalpAnalysis) (analysis : Option ScalpAnalysis) (now : ℤ)
    (quote : String → Option ℚ) (s : ScalpState) (hinv : uniquePerSymbol s) :
    uniquePerSymbol (executeScalpingTrade cfg en symbol analysis now quote s) ∧
    ((a.signal = .STRONG_BUY ∨ a.signal = .BUY) →
      (∃ p ∈ s.positions, p.symbol = symbol) →
      executeScalpingTrade cfg en symbol (some a) now quote s = s) := by
  constructor
  · cases analysis with
    | none => exact hinv
    | some b =>
      rcases executeScalpingTrade_cases cfg en symbol b now quote s with
        h | ⟨hn, -, -, -, h⟩ | ⟨-, -, h⟩ | ⟨hn, -, -, -, h⟩
      · rw [h]; exact hinv
      · rw [h]; exact uniquePerSymbol_openLongState _ _ _ _ _ _ hn hinv
      · rw [h]
        exact uniquePerSymbol_closePosition quote now symbol _ s hinv
      · rw [h]; exact uniquePerSymbol_openShortState _ _ _ _ _ _ hn hinv
  · intro hsig hex
    obtain ⟨p, hp, hpsym⟩ := hex
    have hfind : findPosition s.positions symbol ≠ none := by
      unfold findPosition
      intro hn
      have := List.find?_eq_none.mp hn p hp
      simp [hpsym] at this
    rcases executeScalpingTrade_cases cfg en symbol a now quote s with
      h | ⟨hn, -, -, -, -⟩ | ⟨hk, -, -⟩ | ⟨hn, -, -, -, -⟩
    · exact h
    · exact absurd hn hfind
    · rcases hsig with h | h <;> rcases hk with h' | h' <;> rw [h] at h' <;>
        exact absurd h' (by decide)
    · exact absurd hn hfind

/-- Witness for C3: a BUY signal for a symbol whose position is already
open leaves the concrete state exactly as it was. -/
theorem uniquePosition_invariant_and_buy_rejection_witness :
    uniquePerSymbol ⟨[], [⟨"INFY", 10, 100, 1000, 0, 0, 110, 90⟩], 0, 0, 1000, fun _ => 0⟩ ∧
    executeScalpingTrade ⟨50, 10000, 2500, 5, 3 / 2, 11 / 5, 15⟩ true "INFY"
      (some ⟨.BUY, 95, 25, 99, 98, 97, 100⟩) 100000 (fun _ => none)
      ⟨[], [⟨"INFY", 10, 100, 1000, 0, 0, 110, 90⟩], 0, 0, 1000, fun _ => 0⟩ =
      ⟨[], [⟨"INFY", 10, 100, 1000, 0, 0, 110, 90⟩], 0, 0, 1000, fun _ => 0⟩ := by
  have hinv : uniquePerSymbol
      ⟨[], [⟨"INFY", 10, 100, 1000, 0, 0, 110, 90⟩], 0, 0, 1000, fun _ => 0⟩ := by
    simp [uniquePerSymbol]
  exact ⟨hinv,
    (uniquePosition_invariant_and_buy_rejection ⟨50, 10000, 2500, 5, 3 / 2, 11 / 5, 15⟩
      true "INFY" ⟨.BUY, 95, 25, 99, 98, 97, 100⟩
      (some ⟨.BUY, 95, 25, 99, 98, 97, 100⟩) 100000 (fun _ => none)
      ⟨[], [⟨"INFY", 10, 100, 1000, 0, 0, 110, 90⟩], 0, 0, 1000, fun _ => 0⟩ hinv).2
      (Or.inr rfl) ⟨⟨"INFY", 10, 100, 1000, 0, 0, 110, 90⟩, by simp, rfl⟩⟩

/-- C4: entry sizing and its consequences.  With an actionable signal and
no open position for the symbol: (i) the entry is skipped (the state is
unchanged) when the available cash is under the 500 floor or the sized
quantity is non-positive; (ii) whenever the sized quantity is at least 1
and the floor is met, its cost never exceeds the available cash and its
20 percent short margin never exceeds the available cash; (iii) when an
entry does fire, the recorded position quantity is exactly
scalpQuantity (negated for a short). -/
theorem riskSizer_formula_skip_and_bounds (cfg : ScalpConfig) (en : Bool) (symbol : String)
    (a : ScalpAnalysis) (now : ℤ) (quote : String → Option ℚ) (s : ScalpState)
    (hsig : a.signal ≠ .HOLD)
    (hnopos : findPosition s.positions symbol = none) :
    ((s.availableBalance < 500 ∨
        scalpQuantity cfg.maxPositionSize s.availableBalance a.currentPrice ≤ 0) →
      executeScalpingTrade cfg en symbol (some a) now quote s = s) ∧
    (500 ≤ s.availableBalance →
      1 ≤ scalpQuantity cfg.maxPositionSize s.availableBalance a.currentPrice →
      (scalpQuantity cfg.maxPositionSize s.availableBalance a.currentPrice : ℚ) *
          a.currentPrice ≤ s.availableBalance ∧
      (scalpQuantity cfg.maxPositionSize s.availableBalance a.currentPrice : ℚ) *
          a.currentPrice * (2 / 10) ≤ s.availableBalance) ∧
    ((a.signal = .STRONG_BUY ∨ a.signal = .BUY) →
      (findPosition s.positions symbol = none ∧ (a.signal = .STRONG_BUY ∨ a.signal = .BUY) ∧
        ¬ s.availableBalance < 500 ∧
        ¬ scalpQuantity cfg.maxPositionSize s.availableBalance a.currentPrice ≤ 0 ∧
        executeScalpingTrade cfg en symbol (some a) now quote s =
          openLongState cfg symbol a now
            (scalpQuantity cfg.maxPositionSize s.availableBalance a.currentPrice) s) →
      ((executeScalpingTrade cfg en symbol (some a) now quote s).positions.getLast?).map
          ScalpPosition.quantity =
        some (scalpQuantity cfg.maxPositionSize s.availableBalance a.currentPrice)) ∧
    ((a.signal = .STRONG_SELL ∨ a.signal = .SELL) →
      (findPosition s.positions symbol = none ∧ (a.signal = .STRONG_SELL ∨ a.signal = .SELL) ∧
        ¬ s.availableBalance < 500 ∧
        ¬ scalpQuantity cfg.maxPositionSize s.availableBalance a.currentPrice ≤ 0 ∧
        executeScalpingTrade cfg en symbol (some a) now quote s =
          openShortState cfg symbol a now
            (scalpQuantity cfg.maxPositionSize s.availableBalance a.currentPrice) s) →
      ((executeScalpingTrade cfg en symbol (some a) now quote s).positions.getLast?).map
          ScalpPosition.quantity =
        some (-(scalpQuantity cfg.maxPositionSize s.availableBalance a.currentPrice))) := by
  refine ⟨?_, ?_, ?_, ?_⟩
  · intro hskip
    rcases executeScalpingTrade_cases cfg en symbol a now quote s with
      h | ⟨-, -, hb, hq, -⟩ | ⟨-, hsome, -⟩ | ⟨-, -, hb, hq, -⟩
    · exact h
    · rcases hskip with h' | h' <;> [exact absurd h' hb; exact absurd h' hq]
    · rw [hnopos] at hsome; simp at hsome
    · rcases hskip with h' | h' <;> [exact absurd h' hb; exact absurd h' hq]
  · intro hbal hq
    have hbal0 : (0 : ℚ) ≤ s.availableBalance := le_trans (by norm_num) hbal
    rcases lt_trichotomy (0 : ℚ) a.currentPrice with hp | hp | hp
    · have hfl : (scalpQuantity cfg.maxPositionSize s.availableBalance a.currentPrice : ℚ) ≤
          min cfg.maxPositionSize (s.availableBalance * (9 / 10)) / a.currentPrice := by
        unfold scalpQuantity
        exact_mod_cast Int.floor_le _
      have h1 : (scalpQuantity cfg.maxPositionSize s.availableBalance a.currentPrice : ℚ) *
          a.currentPrice ≤ min cfg.maxPositionSize (s.availableBalance * (9 / 10)) :=
        (le_div_iff₀ hp).mp hfl
      have h2 : min cfg.maxPositionSize (s.availableBalance * (9 / 10)) ≤
          s.availableBalance * (9 / 10) := min_le_right _ _
      have hc : (scalpQuantity cfg.maxPositionSize s.availableBalance a.currentPrice : ℚ) *
          a.currentPrice ≤ s.availableBalance := by linarith
      have hq1 : (1 : ℚ) ≤
          (scalpQuantity cfg.maxPositionSize s.availableBalance a.currentPrice : ℚ) := by
        exact_mod_cast hq
      have hq0 : (0 : ℚ) ≤
          (scalpQuantity cfg.maxPositionSize s.availableBalance a.currentPrice : ℚ) *
            a.currentPrice :=
        mul_nonneg (by linarith) (le_of_lt hp)
      exact ⟨hc, by linarith⟩
    · exfalso
      have hz : scalpQuantity cfg.maxPositionSize s.availableBalance a.currentPrice = 0 := by
        unfold scalpQuantity
        rw [← hp]
        simp
      omega
    · have hq1 : (0 : ℚ) <
          (scalpQuantity cfg.maxPositionSize s.availableBalance a.currentPrice : ℚ) := by
        exact_mod_cast lt_of_lt_of_le Int.zero_lt_one hq
      have hneg : (scalpQuantity cfg.maxPositionSize s.availableBalance a.currentPrice : ℚ) *
          a.currentPrice < 0 := mul_neg_of_pos_of_neg hq1 hp
      exact ⟨by linarith, by linarith⟩
  · intro _ hcase
    rw [hcase.2.2.2.2]
    show ((s.positions ++ [_]).getLast?).map ScalpPosition.quantity = _
    rw [List.getLast?_concat]
    rfl
  · intro _ hcase
    rw [hcase.2.2.2.2]
    show ((s.positions ++ [_]).getLast?).map ScalpPosition.quantity = _
    rw [List.getLast?_concat]
    rfl

/-- Witness for C4: with cash 50,000, cap 10,000 and price 100 the sized
quantity is 100 and both the long cost and the short margin fit within
the available cash. -/
theorem riskSizer_formula_skip_and_bounds_witness :
    (500 : ℚ) ≤ 50000 ∧ (1 : ℤ) ≤ scalpQuantity 10000 50000 100 ∧
    (scalpQuantity 10000 50000 100 : ℚ) * 100 ≤ 50000 ∧
    (scalpQuantity 10000 50000 100 : ℚ) * 100 * (2 / 10) ≤ 50000 := by
  have h := (riskSizer_formula_skip_and_bounds ⟨50, 10000, 2500, 5, 3 / 2, 11 / 5, 15⟩
    true "TCS" ⟨.BUY, 95, 25, 99, 98, 97, 100⟩ 100000 (fun _ => none)
    ⟨[], [], 0, 0, 50000, fun _ => 0⟩ (by decide) rfl).2.1 (by norm_num)
    (by norm_num [scalpQuantity])
  exact ⟨by norm_num, by norm_num [scalpQuantity], h.1, h.2⟩

/-- C6: the RSI is always within 0 and 100; it is exactly 50 whenever the
series has at most period points, and exactly 100 whenever the trailing
average loss is exactly 0. -/
theorem rsi_range_and_degenerate_values (data : List TechnicalData) (period : ℕ) :
    (data.length < period + 1 → calculateAdvancedRSI data period = 50) ∧
    (period + 1 ≤ data.length → rsiAvgLoss data period = 0 →
      calculateAdvancedRSI data period = 100) ∧
    0 ≤ calculateAdvancedRSI data period ∧ calculateAdvancedRSI data period ≤ 100 := by
  refine ⟨?_, ?_, ?_⟩
  · intro h
    unfold calculateAdvancedRSI
    rw [if_pos h]
  · intro h hz
    simp only [calculateAdvancedRSI]
    rw [if_neg (not_lt.mpr h), if_pos hz]
  · by_cases hlen : data.length < period + 1
    · unfold calculateAdvancedRSI
      rw [if_pos hlen]
      norm_num
    · by_cases hz : rsiAvgLoss data period = 0
      · simp only [calculateAdvancedRSI]
        rw [if_neg hlen, if_pos hz]
        norm_num
      · have hg := rsiAvgGain_nonneg data period
        have hl := rsiAvgLoss_nonneg data period
        have hrs : 0 ≤ rsiAvgGain data period / rsiAvgLoss data period :=
          div_nonneg hg hl
        simp only [calculateAdvancedRSI]
        rw [if_neg hlen, if_neg hz]
        constructor
        · have hle : 100 / (1 + rsiAvgGain data period / rsiAvgLoss data period) ≤ 100 := by
            apply div_le_self (by norm_num)
            linarith
          linarith
        · have hpos : 0 < 100 / (1 + rsiAvgGain data period / rsiAvgLoss data period) := by
            positivity
          linarith

/-- Witness for C6: the empty series gives RSI 50, and a strictly rising
15-point series has zero average loss and RSI exactly 100. -/
theorem rsi_range_and_degenerate_values_witness :
    calculateAdvancedRSI [] 14 = 50 ∧
    (14 + 1 ≤ ([⟨"d", 0, 0, 0, 1, 0⟩, ⟨"d", 0, 0, 0, 2, 0⟩, ⟨"d", 0, 0, 0, 3, 0⟩,
        ⟨"d", 0, 0, 0, 4, 0⟩, ⟨"d", 0, 0, 0, 5, 0⟩, ⟨"d", 0, 0, 0, 6, 0⟩,
        ⟨"d", 0, 0, 0, 7, 0⟩, ⟨"d", 0, 0, 0, 8, 0⟩, ⟨"d", 0, 0, 0, 9, 0⟩,
        ⟨"d", 0, 0, 0, 10, 0⟩, ⟨"d", 0, 0, 0, 11, 0⟩, ⟨"d", 0, 0, 0, 12, 0⟩,
        ⟨"d", 0, 0, 0, 13, 0⟩, ⟨"d", 0, 0, 0, 14, 0⟩, ⟨"d", 0, 0, 0, 15, 0⟩] :
        List TechnicalData).length) ∧
    calculateAdvancedRSI [⟨"d", 0, 0, 0, 1, 0⟩, ⟨"d", 0, 0, 0, 2, 0⟩, ⟨"d", 0, 0, 0, 3, 0⟩,
        ⟨"d", 0, 0, 0, 4, 0⟩, ⟨"d", 0, 0, 0, 5, 0⟩, ⟨"d", 0, 0, 0, 6, 0⟩,
        ⟨"d", 0, 0, 0, 7, 0⟩, ⟨"d", 0, 0, 0, 8, 0⟩, ⟨"d", 0, 0, 0, 9, 0⟩,
        ⟨"d", 0, 0, 0, 10, 0⟩, ⟨"d", 0, 0, 0, 11, 0⟩, ⟨"d", 0, 0, 0, 12, 0⟩,
        ⟨"d", 0, 0, 0, 13, 0⟩, ⟨"d", 0, 0, 0, 14, 0⟩, ⟨"d", 0, 0, 0, 15, 0⟩] 14 = 100 := by
  refine ⟨(rsi_range_and_degenerate_values [] 14).1 (by norm_num), by norm_num, ?_⟩
  exact (rsi_range_and_degenerate_values _ 14).2.1 (by norm_num)
    (by norm_num [rsiAvgLoss, rsiChanges])

/-- Counterexample for C7 as stated: a one-bar series with non-negative
volume and positive total volume whose close lies above its high makes
the VWAP (1) exceed the maximum high (0) - the claim needs the OHLC sanity
condition low ≤ close ≤ high, which it does not assume. -/
theorem vwap_bound_counterexample :
    (∀ p ∈ ([⟨"d", 0, 0, 0, 3, 1⟩] : List TechnicalData), 0 ≤ p.volume) ∧
    0 < totalVolume [⟨"d", 0, 0, 0, 3, 1⟩] ∧
    specMaxHigh [⟨"d", 0, 0, 0, 3, 1⟩] < calculateAdvancedVWAP [⟨"d", 0, 0, 0, 3, 1⟩] := by
  refine ⟨?_, ?_, ?_⟩
  · intro p hp
    rw [List.mem_singleton] at hp
    subst hp
    norm_num
  · norm_num [totalVolume]
  · norm_num [specMaxHigh, calculateAdvancedVWAP, totalVolume, totalVolumePrice,
      typicalPrice]

/-- C7 (amended): for a series with non-negative volumes in which every
bar satisfies low ≤ close ≤ high, the VWAP is 0 when the total volume is
0 and lies within the minimum low and the maximum high when the total
volume is positive. -/
theorem vwap_zero_and_bounds (data : List TechnicalData)
    (hv : ∀ p ∈ data, 0 ≤ p.volume)
    (hohlc : ∀ p ∈ data, p.low ≤ p.close ∧ p.close ≤ p.high) :
    (totalVolume data = 0 → calculateAdvancedVWAP data = 0) ∧
    (0 < totalVolume data →
      specMinLow data ≤ calculateAdvancedVWAP data ∧
      calculateAdvancedVWAP data ≤ specMaxHigh data) := by
  constructor
  · intro h0
    unfold calculateAdvancedVWAP
    split_ifs with h1 h2
    · rfl
    · rw [h0] at h2; norm_num at h2
    · rfl
  · intro hpos
    have hne : ¬ data.length = 0 := by
      intro h
      rw [List.length_eq_zero] at h
      subst h
      simp [totalVolume] at hpos
    have hlow : ∀ p ∈ data, specMinLow data ≤ typicalPrice p := by
      intro p hp
      have h1 := specMinLow_le_of_mem hp
      have h2 := (hohlc p hp).1
      have h3 := (hohlc p hp).2
      unfold typicalPrice
      have hlh : p.low ≤ p.high := le_trans h2 h3
      linarith
    have hhigh : ∀ p ∈ data, typicalPrice p ≤ specMaxHigh data := by
      intro p hp
      have h1 := le_specMaxHigh_of_mem hp
      have h2 := (hohlc p hp).1
      have h3 := (hohlc p hp).2
      unfold typicalPrice
      have hlh : p.low ≤ p.high := le_trans h2 h3
      linarith
    have hb := weighted_typical_sum_bounds data (specMinLow data) (specMaxHigh data)
      hv hlow hhigh
    unfold calculateAdvancedVWAP
    rw [if_neg hne, if_pos hpos]
    constructor
    · rw [le_div_iff₀ hpos]
      exact hb.1
    · rw [div_le_iff₀ hpos]
      calc totalVolumePrice data ≤ specMaxHigh data * totalVolume data := hb.2
        _ = specMaxHigh data * totalVolume data := rfl

/-- Witness for C7 (amended) on a concrete two-bar series with positive
volume: the VWAP lands between the minimum low and the maximum high. -/
theorem vwap_zero_and_bounds_witness :
    0 < totalVolume [⟨"d", 0, 12, 8, 10, 2⟩, ⟨"d", 0, 20, 10, 12, 1⟩] ∧
    specMinLow [⟨"d", 0, 12, 8, 10, 2⟩, ⟨"d", 0, 20, 10, 12, 1⟩] ≤
      calculateAdvancedVWAP [⟨"d", 0, 12, 8, 10, 2⟩, ⟨"d", 0, 20, 10, 12, 1⟩] ∧
    calculateAdvancedVWAP [⟨"d", 0, 12, 8, 10, 2⟩, ⟨"d", 0, 20, 10, 12, 1⟩] ≤
      specMaxHigh [⟨"d", 0, 12, 8, 10, 2⟩, ⟨"d", 0, 20, 10, 12, 1⟩] := by
  have hv : ∀ p ∈ ([⟨"d", 0, 12, 8, 10, 2⟩, ⟨"d", 0, 20, 10, 12, 1⟩] :
      List TechnicalData), 0 ≤ p.volume := by
    intro p hp
    rcases List.mem_cons.mp hp with h | h
    · subst h; norm_num
    · rw [List.mem_singleton] at h; subst h; norm_num
  have hohlc : ∀ p ∈ ([⟨"d", 0, 12, 8, 10, 2⟩, ⟨"d", 0, 20, 10, 12, 1⟩] :
      List TechnicalData), p.low ≤ p.close ∧ p.close ≤ p.high := by
    intro p hp
    rcases List.mem_cons.mp hp with h | h
    · subst h; exact ⟨by norm_num, by norm_num⟩
    · rw [List.mem_singleton] at h; subst h; exact ⟨by norm_num, by norm_num⟩
  have h := (vwap_zero_and_bounds _ hv hohlc).2 (by norm_num [totalVolume])
  exact ⟨by norm_num [totalVolume], h.1, h.2⟩

/-- Counterexample for C8 as stated: on the empty series the engine does
not return neutral defaults - it raises the error the source throws. -/
theorem engine_empty_series_error :
    generateAdvancedTechnicalSignals (fun q => q) [] "5m" "t" =
      Except.error "No data provided for technical analysis" := rfl

/-- C8 (amended): the engine tolerates every non-empty series, however
short, returning a result whose data-starved indicators carry the
documented neutral/default values (RSI 50 at up to 14 points, MA50 0
below 50 points, MA100 0 below 100 points); only the empty series raises
an error. -/
theorem engine_short_series_defaults (sqrtFn : ℚ → ℚ) (data : List TechnicalData)
    (tf ts : String) (hne : data ≠ []) :
    (∃ out, generateAdvancedTechnicalSignals sqrtFn data tf ts = .ok out) ∧
    (data.length ≤ 14 →
      (generateAdvancedTechnicalSignals sqrtFn data tf ts).map (·.rsi) = .ok 50) ∧
    (data.length < 50 →
      (generateAdvancedTechnicalSignals sqrtFn data tf ts).map (·.ma50) = .ok 0) ∧
    (data.length < 100 →
      (generateAdvancedTechnicalSignals sqrtFn data tf ts).map (·.ma100) = .ok 0) := by
  have hlen : ¬ data.length = 0 := by
    intro h
    rw [List.length_eq_zero] at h
    exact hne h
  unfold generateAdvancedTechnicalSignals
  rw [if_neg hlen]
  refine ⟨⟨_, rfl⟩, ?_, ?_, ?_⟩
  · intro h14
    simp only [Except.map]
    have hr : (generateSignalsBody sqrtFn data tf ts).rsi =
        round2 (calculateAdvancedRSI data 14) := rfl
    rw [hr]
    have h50 : calculateAdvancedRSI data 14 = 50 := by
      unfold calculateAdvancedRSI
      rw [if_pos (by omega)]
    rw [h50]
    have : round2 ((50 : ℤ) : ℚ) = ((50 : ℤ) : ℚ) := round2_intCast 50
    norm_num at this
    rw [this]
  · intro h50
    simp only [Except.map]
    have hm : (generateSignalsBody sqrtFn data tf ts).ma50 =
        round2 (calculateSMA (data.map (·.close)) 50) := rfl
    rw [hm]
    have hz : calculateSMA (data.map (·.close)) 50 = 0 := by
      unfold calculateSMA
      rw [if_pos (by simpa using h50)]
    rw [hz]
    have : round2 ((0 : ℤ) : ℚ) = ((0 : ℤ) : ℚ) := round2_intCast 0
    norm_num at this
    rw [this]
  · intro h100
    simp only [Except.map]
    have hm : (generateSignalsBody sqrtFn data tf ts).ma100 =
        round2 (calculateSMA (data.map (·.close)) 100) := rfl
    rw [hm]
    have hz : calculateSMA (data.map (·.close)) 100 = 0 := by
      unfold calculateSMA
      rw [if_pos (by simpa using h100)]
    rw [hz]
    have : round2 ((0 : ℤ) : ℚ) = ((0 : ℤ) : ℚ) := round2_intCast 0
    norm_num at this
    rw [this]

/-- Witness for C8 (amended) on a one-bar series: the engine returns
a result, with RSI 50 and both moving averages 0. -/
theorem engine_short_series_defaults_witness :
    ([⟨"d", 0, 12, 8, 10, 2⟩] : List TechnicalData) ≠ [] ∧
    (∃ out, generateAdvancedTechnicalSignals (fun q => q) [⟨"d", 0, 12, 8, 10, 2⟩]
      "5m" "t" = .ok out) ∧
    (generateAdvancedTechnicalSignals (fun q => q) [⟨"d", 0, 12, 8, 10, 2⟩]
      "5m" "t").map (·.rsi) = .ok 50 ∧
    (generateAdvancedTechnicalSignals (fun q => q) [⟨"d", 0, 12, 8, 10, 2⟩]
      "5m" "t").map (·.ma50) = .ok 0 ∧
    (generateAdvancedTechnicalSignals (fun q => q) [⟨"d", 0, 12, 8, 10, 2⟩]
      "5m" "t").map (·.ma100) = .ok 0 := by
  have h := engine_short_series_defaults (fun q => q) [⟨"d", 0, 12, 8, 10, 2⟩] "5m" "t"
    (by simp)
  exact ⟨by simp, h.1, h.2.1 (by norm_num), h.2.2.1 (by norm_num), h.2.2.2 (by norm_num)⟩

/-- C9: the engine is deterministic in everything it reports other than
the wall-clock stamp: the indicators, the signal kind, the confidence,
the analysis classification and the price targets are identical across
runs at identical inputs, whatever the clock reads. -/
theorem engine_deterministic_observables (sqrtFn : ℚ → ℚ) (data : List TechnicalData)
    (tf t₁ t₂ : String) :
    (generateAdvancedTechnicalSignals sqrtFn data tf t₁).map engineObservables =
      (generateAdvancedTechnicalSignals sqrtFn data tf t₂).map engineObservables := by
  unfold generateAdvancedTechnicalSignals
  split_ifs with h
  · rfl
  · rfl

/-- C10: a missing technicalAnalysis object, or a zero/missing rsi, vwap,
ma50, ma100 or current price, makes analyzeScalpingSignal return none,
and a none analysis makes the decision step a strict no-op; in
particular a series of fewer than 100 points yields ma100 = 0, so such a
symbol can never trade. -/
theorem missing_indicator_no_signal_no_trade (minConfidence : ℚ)
    (qp : Option ℚ) (t : ScalpTechnicals) (data : List TechnicalData)
    (cfg : ScalpConfig) (en : Bool) (symbol : String) (now : ℤ)
    (quote : String → Option ℚ) (s : ScalpState) :
    analyzeScalpingSignal minConfidence none qp = none ∧
    ((t.rsi = 0 ∨ t.vwap = 0 ∨ t.ma50 = 0 ∨ t.ma100 = 0 ∨ qp.getD 0 = 0) →
      analyzeScalpingSignal minConfidence (some t) qp = none) ∧
    (data.length < 100 → (calculateMovingAverages data).ma100 = 0) ∧
    executeScalpingTrade cfg en symbol none now quote s = s := by
  refine ⟨rfl, ?_, ?_, rfl⟩
  · intro h
    simp only [analyzeScalpingSignal]
    rw [if_pos h]
  · intro h
    have hm : (calculateMovingAverages data).ma100 =
        round2 (calculateSMA (data.map (·.close)) 100) := rfl
    rw [hm]
    have hz : calculateSMA (data.map (·.close)) 100 = 0 := by
      unfold calculateSMA
      rw [if_pos (by simpa using h)]
    rw [hz]
    have : round2 ((0 : ℤ) : ℚ) = ((0 : ℤ) : ℚ) := round2_intCast 0
    norm_num at this
    rw [this]

/-- Witness for C10: a symbol whose ma100 is 0 gets no signal, and the
resulting absent analysis leaves a concrete state untouched. -/
theorem missing_indicator_no_signal_no_trade_witness :
    analyzeScalpingSignal 50 (some ⟨40, 99, 98, 0⟩) (some 100) = none ∧
    (calculateMovingAverages [⟨"d", 0, 12, 8, 10, 2⟩]).ma100 = 0 ∧
    executeScalpingTrade ⟨50, 10000, 2500, 5, 3 / 2, 11 / 5, 15⟩ true "TCS" none 100000
      (fun _ => none) ⟨[], [], 0, 0, 50000, fun _ => 0⟩ =
      ⟨[], [], 0, 0, 50000, fun _ => 0⟩ := by
  have h := missing_indicator_no_signal_no_trade 50 (some 100) ⟨40, 99, 98, 0⟩
    [⟨"d", 0, 12, 8, 10, 2⟩] ⟨50, 10000, 2500, 5, 3 / 2, 11 / 5, 15⟩ true "TCS" 100000
    (fun _ => none) ⟨[], [], 0, 0, 50000, fun _ => 0⟩
  exact ⟨h.2.1 (by norm_num), h.2.2.1 (by norm_num), h.2.2.2⟩
